import Mathlib

/-!
Verification of the `pyshark-plus-plus` tshark wrapper.

This file gives a shallow embedding of the two modules of the package:

* `statistics.py` — `parse_io_statistics`, a regex/line parser for the
  `tshark -z io,stat,0` report;
* `pyshark_plus_plus.py` — the `TsharkWrapper` class: command-line list
  construction, the interface-listing regex parser, the name/description
  lookups, the subprocess-calling operations (modelled by passing the
  run results explicitly), and the tiny running/stopped session state
  machine used by `start_thread` / `stop_thread` / `__enter__` / `__exit__`.

Python strings are modelled as `String` / `List Char`; Python `int` as `Int`
(arbitrary precision); Python exceptions as an explicit `Except PyError`
result; the values parsed by `float(...)` from a `\d+\.\d+` capture are
modelled exactly as rationals.  Real time (`time.sleep`) and thread
scheduling are abstracted away: the state machine acts on the session state
directly.
-/

namespace PySharkPP

/-- Errors a modelled Python function can raise. -/
inductive PyError
  | indexError
  | valueError
  | typeError
  | attributeError
  | exception (msg : String)
deriving DecidableEq, Repr

/-- Boolean discriminator for `Except`, mirroring `Except.isOk`. -/
def isOkB {ε α : Type} : Except ε α → Bool
  | .ok _ => true
  | .error _ => false

/-- The characters `str.splitlines` treats as line boundaries. -/
def isLineBreak (c : Char) : Bool :=
  c == '\n' || c == '\r' || c == '\x0B' || c == '\x0C' ||
    c == '\x1C' || c == '\x1D' || c == '\x1E' || c == '\x85' ||
    c == '\u2028' || c == '\u2029'

/-- Worker for `pySplitlines`: accumulates the current line (reversed). -/
def splitlinesGo : List Char → List Char → List String
  | [], cur => if cur.isEmpty then [] else [⟨cur.reverse⟩]
  | '\r' :: '\n' :: t, cur => ⟨cur.reverse⟩ :: splitlinesGo t []
  | c :: t, cur =>
    if isLineBreak c then ⟨cur.reverse⟩ :: splitlinesGo t []
    else splitlinesGo t (c :: cur)

/-- Python `str.splitlines()`: `"" ↦ []`, a trailing newline adds no line,
`\r\n` counts as one boundary. -/
def pySplitlines (s : String) : List String :=
  splitlinesGo s.data []

/-- Python `str.split(sep)` for a one-character separator: splits at every
occurrence, keeping empty fields (so `"".split(sep) = [""]`). -/
def pySplitChar (sep : Char) : List Char → List (List Char)
  | [] => [[]]
  | c :: t =>
    match pySplitChar sep t with
    | h :: rs => if c == sep then [] :: h :: rs else (c :: h) :: rs
    | [] => if c == sep then [[], []] else [[c]]

/-- The whitespace characters removed by Python `str.strip()`. -/
def pyIsSpace (c : Char) : Bool :=
  c == ' ' || c == '\t' || c == '\n' || c == '\r' || c == '\x0B' || c == '\x0C'

/-- Python `str.strip()` on a character list. -/
def pyStripL (l : List Char) : List Char :=
  ((l.dropWhile pyIsSpace).reverse.dropWhile pyIsSpace).reverse

/-- Tail of the digit-group check for `int(...)`: after a digit, the rest is
`(digit | '_' digit)*` — underscores only between digits. -/
def usTail : List Char → Bool
  | [] => true
  | '_' :: c :: t => c.isDigit && usTail t
  | c :: t => c.isDigit && usTail t

/-- The digit part accepted by Python `int(...)`: nonempty digits with
optional single underscores between digits. -/
def validDigitsUS : List Char → Bool
  | [] => false
  | c :: t => c.isDigit && usTail t

/-- Numeric value of a digit string, ignoring the grouping underscores. -/
def natDigitsVal (l : List Char) : Nat :=
  l.foldl (fun a c => if c == '_' then a else 10 * a + (c.toNat - 48)) 0

/-- Python `int(str)` on an already-stripped string: optional sign, then
digits with optional underscore grouping; `none` models `ValueError`. -/
def pyInt? (l : List Char) : Option Int :=
  match l with
  | '+' :: rest => if validDigitsUS rest then some (natDigitsVal rest : Int) else none
  | '-' :: rest => if validDigitsUS rest then some (-(natDigitsVal rest : Int)) else none
  | _ => if validDigitsUS l then some (natDigitsVal l : Int) else none

/-- Python negative indexing `l[-k]` (for `k ≥ 1`): `none` models the
`IndexError` raised when `k` exceeds the length. -/
def negIdx? {α : Type} (l : List α) (k : Nat) : Option α :=
  if h : 0 < k ∧ k ≤ l.length then
    some (l.get ⟨l.length - k, by omega⟩)
  else
    none

/-! ## The regex `(\d+\.\d+) secs` preceded by a literal

`re.search(lit + r'(\d+\.\d+) secs', s)` for a plain literal `lit`: the
engine tries each position left to right; at a position the literal must match,
then a maximal digit run, a dot, a maximal digit run and the literal
`" secs"` (the greedy `\d+` is forced to the maximal run because the
following character is not a digit). -/

/-- Exact rational value of the float literal `d1 ++ "." ++ d2`. -/
def ratOfParts (d1 d2 : List Char) : ℚ :=
  (natDigitsVal d1 : ℚ) + (natDigitsVal d2 : ℚ) / (10 : ℚ) ^ d2.length

/-- Match `\d+\.\d+ secs` at the start of `l`, returning the captured
float value. -/
def matchFloatSecsAt (l : List Char) : Option ℚ :=
  match l.takeWhile Char.isDigit, l.dropWhile Char.isDigit with
  | [], _ => none
  | d1, '.' :: r2 =>
    match r2.takeWhile Char.isDigit, r2.dropWhile Char.isDigit with
    | [], _ => none
    | d2, rest =>
      if (" secs".data).isPrefixOf rest then some (ratOfParts d1 d2) else none
  | _, _ => none

/-- Attempt the whole pattern at the current position. -/
def tryFloatSecsAt (lit l : List Char) : Option ℚ :=
  if lit.isPrefixOf l then matchFloatSecsAt (l.drop lit.length) else none

/-- Scan for the leftmost position where the pattern matches. -/
def searchFS (lit : List Char) : List Char → Option ℚ
  | [] => tryFloatSecsAt lit []
  | c :: t =>
    match tryFloatSecsAt lit (c :: t) with
    | some q => some q
    | none => searchFS lit t

/-- Model of `re.search(lit + r'(\d+\.\d+) secs', s)`, as the captured value. -/
def searchFloatSecs (lit : String) (s : String) : Option ℚ :=
  searchFS lit.data s.data

/-! ## `statistics.py` -/

/-- The dictionary returned by `parse_io_statistics`. -/
structure PcapStatistics where
  duration : Option ℚ
  interval : Option ℚ
  frames : Int
  bytes : Int
deriving DecidableEq, Repr

/-- Embedding of `parse_io_statistics(stdout)` from `statistics.py`:
regex-extract `Duration:`/`Interval:` (absent → `None`), then
`frames = int(stdout.splitlines()[-2].split('|')[-2].strip())` and
`bytes_ = int(stdout.splitlines()[-2].split('|')[-3].strip())`,
with Python's evaluation order of the possible exceptions. -/
def parse_io_statistics (stdout : String) : Except PyError PcapStatistics :=
  let duration := searchFloatSecs "Duration: " stdout
  let interval := searchFloatSecs "Interval: " stdout
  match negIdx? (pySplitlines stdout) 2 with
  | none => .error .indexError
  | some row =>
    let fields := pySplitChar '|' row.data
    match negIdx? fields 2 with
    | none => .error .indexError
    | some fcell =>
      match pyInt? (pyStripL fcell) with
      | none => .error .valueError
      | some frames =>
        match negIdx? fields 3 with
        | none => .error .indexError
        | some bcell =>
          match pyInt? (pyStripL bcell) with
          | none => .error .valueError
          | some bytes_ =>
            .ok { duration := duration, interval := interval,
                  frames := frames, bytes := bytes_ }

/-! ## The interface-listing regex `(\d+)\. (.*) \((.*)\)`

`re.search` semantics for this fixed pattern: leftmost start position wins;
at a position, `\d+` is forced to the maximal digit run (the following
literal is `'.'`, not a digit); after the literal `". "`, the greedy
`(.*) \((.*)\)` makes group 2 end at the rightmost `" ("` that still has a
`')'` after it, and group 3 end at the last `')'` of the line. -/

/-- Split `r` at its last `')'`: `r = p ++ ')' :: q` with no `')'` in `q`. -/
def splitLastParen : List Char → Option (List Char × List Char)
  | [] => none
  | c :: t =>
    match splitLastParen t with
    | some (p, q) => some (c :: p, q)
    | none => if c == ')' then some ([], t) else none

/-- Split `p` at its last `" ("`: `p = a ++ ' ' :: '(' :: b`. -/
def splitLastSpParen : List Char → Option (List Char × List Char)
  | [] => none
  | [_] => none
  | c1 :: c2 :: t =>
    match splitLastSpParen (c2 :: t) with
    | some (a, b) => some (c1 :: a, b)
    | none => if c1 == ' ' && c2 == '(' then some ([], t) else none

/-- Match ` (.*) \((.*)\)` against `r` (with trailing text allowed),
returning groups 2 and 3. -/
def matchNameDesc (r : List Char) : Option (List Char × List Char) :=
  match splitLastParen r with
  | none => none
  | some (p, _) => splitLastSpParen p

/-- Try the whole interface pattern at the start of `l`: maximal digit run,
literal `". "`, then `matchNameDesc` on the remainder. -/
def matchIntfAt (l : List Char) : Option (String × String × String) :=
  match l.takeWhile Char.isDigit with
  | [] => none
  | d :: ds =>
    match l.dropWhile Char.isDigit with
    | '.' :: ' ' :: r =>
      match matchNameDesc r with
      | some (a, b) => some (⟨d :: ds⟩, ⟨a⟩, ⟨b⟩)
      | none => none
    | _ => none

/-- Model of `re.search(r'(\d+)\. (.*) \((.*)\)', line)`: the three captured groups
at the leftmost position where the pattern matches. -/
def searchIntf : List Char → Option (String × String × String)
  | [] => none
  | c :: t =>
    match matchIntfAt (c :: t) with
    | some res => some res
    | none => searchIntf t

/-! ## `TsharkWrapper`: interface records and lookups -/

/-- One dictionary produced by `get_interfaces_data`. -/
structure IntfRecord where
  number : String
  name : String
  description : String
deriving DecidableEq, Repr

/-- The `for line in stdout.splitlines()` loop body of
`get_interfaces_data`. -/
def intfLoop : List String → List IntfRecord
  | [] => []
  | line :: rest =>
    match searchIntf line.data with
    | some (n, nm, ds) =>
      { number := n, name := nm, description := ds } :: intfLoop rest
    | none => intfLoop rest

/-- Embedding of `TsharkWrapper.get_interfaces_data`, parametrised by the
interface-listing stdout that `list_interfaces` would return. -/
def get_interfaces_data (stdout : String) : List IntfRecord :=
  intfLoop (pySplitlines stdout)

/-- The two dictionary keys `_get_interface_number_by_field` is called
with. -/
inductive IntfField
  | name
  | description
deriving DecidableEq, Repr

/-- The field access `interface[field_name]`. -/
def fieldValue (r : IntfRecord) : IntfField → String
  | .name => r.name
  | .description => r.description

/-- The textual `field_name` used in the error message. -/
def fieldLabel : IntfField → String
  | .name => "name"
  | .description => "description"

/-- The `for interface in interfaces` loop of
`_get_interface_number_by_field`. -/
def findFieldLoop (field : IntfField) (value : String) :
    List IntfRecord → Except PyError String
  | [] =>
    .error (.exception
      ("Field " ++ fieldLabel field ++ " with value " ++ value ++ " not found"))
  | r :: rest =>
    if fieldValue r field = value then .ok r.number
    else findFieldLoop field value rest

/-- Embedding of `TsharkWrapper._get_interface_number_by_field`, parametrised by the
interface-listing stdout. -/
def getInterfaceNumberByField (stdout : String) (field : IntfField)
    (value : String) : Except PyError String :=
  findFieldLoop field value (get_interfaces_data stdout)

/-- Embedding of `TsharkWrapper.get_interface_number_by_name`. -/
def get_interface_number_by_name (stdout : String) (interface_name : String) :
    Except PyError String :=
  getInterfaceNumberByField stdout .name interface_name

/-- Embedding of `TsharkWrapper.get_interface_number_by_description`. -/
def get_interface_number_by_description (stdout : String)
    (interface_description : String) : Except PyError String :=
  getInterfaceNumberByField stdout .description interface_description

/-! ## `TsharkWrapper.__init__` / `_get_interface_number` -/

/-- The `InterfaceNumberType` union
`Union[str, int, List[str], List[int]]`. -/
inductive PyIntfNumArg
  | str (s : String)
  | int (n : Int)
  | listStr (l : List String)
  | listInt (l : List Int)
deriving DecidableEq, Repr

/-- The `Union[str, List[str]]` shape of the name/description arguments. -/
inductive PyStrArg
  | one (s : String)
  | many (l : List String)
deriving DecidableEq, Repr

/-- The `interface_number` branch of `_get_interface_number`: each given
number coerced with `str(...)` (the identity on strings). -/
def numArgStrs : Option PyIntfNumArg → List String
  | none => []
  | some (.listStr l) => l
  | some (.listInt l) => l.map (fun i => toString i)
  | some (.str s) => [s]
  | some (.int n) => [toString n]

/-- Embedding of `TsharkWrapper._get_interface_number`, parametrised by the
interface-listing stdout used by the lookups.  The Python builds the list
by successive `append`/`extend`; an exception raised by a lookup
propagates (modelled by the explicit `.error` matches). -/
def getInterfaceNumberOf (stdout : String) (num? : Option PyIntfNumArg)
    (name? desc? : Option PyStrArg) : Except PyError (List String) :=
  let i1 := numArgStrs num?
  let r2 : Except PyError (List String) :=
    match name? with
    | none => .ok i1
    | some (.one s) =>
      match get_interface_number_by_name stdout s with
      | .error e => .error e
      | .ok n => .ok (i1 ++ [n])
    | some (.many l) =>
      match l.mapM (get_interface_number_by_name stdout) with
      | .error e => .error e
      | .ok nsl => .ok (i1 ++ nsl)
  match r2 with
  | .error e => .error e
  | .ok i2 =>
    match desc? with
    | none => .ok i2
    | some (.one s) =>
      match get_interface_number_by_description stdout s with
      | .error e => .error e
      | .ok n => .ok (i2 ++ [n])
    | some (.many l) =>
      match l.mapM (get_interface_number_by_description stdout) with
      | .error e => .error e
      | .ok dsl => .ok (i2 ++ dsl)

/-- The configuration fields `__init__` stores on the instance. -/
structure TsharkConfig where
  file_path : Option String
  capture_filter : Option String
  tshark_path : String
  interface_number : List String
deriving DecidableEq, Repr

/-- Embedding of `TsharkWrapper.__init__`: stores the plain fields and resolves
`interface_number` via `_get_interface_number` (a failed lookup propagates
as the stored exception). -/
def tsharkWrapperInit (stdout : String) (file_path : Option String)
    (capture_filter : Option String) (tshark_path : String)
    (num? : Option PyIntfNumArg) (name? desc? : Option PyStrArg) :
    Except PyError TsharkConfig :=
  match getInterfaceNumberOf stdout num? name? desc? with
  | .error e => .error e
  | .ok ifaces =>
    .ok { file_path := file_path, capture_filter := capture_filter,
          tshark_path := tshark_path, interface_number := ifaces }

/-! ## Subprocess operations

`subprocess.run` / `subprocess.Popen` + `communicate` are modelled by an
explicit function from the argument list to the external tool's result;
each operation also returns the list of commands it spawned. -/

/-- Result of one external-tool invocation. -/
structure RunResult where
  returncode : Int
  stdout : String
  stderr : String
deriving DecidableEq, Repr

/-- Python truthiness of an optional string (`None` and `""` are falsy). -/
def pyTruthyStr : Option String → Bool
  | none => false
  | some s => !(s == "")

/-- Python truthiness of an optional int (`None` and `0` are falsy). -/
def pyTruthyInt : Option Int → Bool
  | none => false
  | some n => !(n == 0)

/-- The command list built by `TsharkWrapper.start_capture`, with the
successive `cmd.extend` steps of the source. -/
def start_capture_cmd (cfg : TsharkConfig) (duration : Option Int) :
    List String :=
  let cmd := [cfg.tshark_path, "-p", "-q"]
  let cmd := cmd ++ ["-i"]
  let cmd := cmd ++ cfg.interface_number
  let cmd :=
    match cfg.file_path with
    | some fp => if fp == "" then cmd else cmd ++ ["-w", fp]
    | none => cmd
  let cmd :=
    match cfg.capture_filter with
    | some f => if f == "" then cmd else cmd ++ ["-f", f]
    | none => cmd
  match duration with
  | some d => if d == 0 then cmd else cmd ++ ["-a", "duration:" ++ toString d]
  | none => cmd

/-- Embedding of `TsharkWrapper.start_capture`: builds the command, spawns it once, and
returns the spawned process's return code (first component: the commands
spawned). -/
def start_capture (cfg : TsharkConfig) (duration : Option Int)
    (spawn : List String → RunResult) : List (List String) × Int :=
  let cmd := start_capture_cmd cfg duration
  ([cmd], (spawn cmd).returncode)

/-- Embedding of `TsharkWrapper.list_interfaces`. -/
def list_interfaces (tshark_path : String)
    (run : List String → RunResult) : List (List String) × Except PyError String :=
  let cmd := [tshark_path, "-D"]
  let result := run cmd
  ([cmd],
    if result.returncode ≠ 0 then
      .error (.exception ("Error listing interfaces: " ++ result.stderr))
    else
      .ok result.stdout)

/-- Embedding of `TsharkWrapper.read_pcap`. -/
def read_pcap (tshark_path : String) (pcap_file : String)
    (run : List String → RunResult) : List (List String) × Except PyError String :=
  let cmd := [tshark_path, "-r", pcap_file]
  let result := run cmd
  ([cmd],
    if result.returncode ≠ 0 then
      .error (.exception ("Error reading pcap file: " ++ result.stderr))
    else
      .ok result.stdout)

/-- Embedding of `TsharkWrapper.apply_filter`. -/
def apply_filter (tshark_path : String) (pcap_file : String)
    (display_filter : String) (run : List String → RunResult) :
    List (List String) × Except PyError String :=
  let cmd := [tshark_path, "-r", pcap_file, "-Y", display_filter]
  let result := run cmd
  ([cmd],
    if result.returncode ≠ 0 then
      .error (.exception ("Error applying display filter: " ++ result.stderr))
    else
      .ok result.stdout)

/-- The resolution `file_path = file_path or self.file_path`. -/
def pyOrOptStr (a b : Option String) : Option String :=
  if pyTruthyStr a then a else b

/-- Embedding of `TsharkWrapper.get_statistics`: resolves the path, runs
`-r <path> -q -z io,stat,0`, and passes the stdout to
`parse_io_statistics` without inspecting the return code.  A resolved
path of `None` makes `subprocess.run` itself raise before any spawn. -/
def get_statistics (cfg : TsharkConfig) (arg : Option String)
    (run : List String → RunResult) :
    List (List String) × Except PyError PcapStatistics :=
  match pyOrOptStr arg cfg.file_path with
  | none => ([], .error .typeError)
  | some fp =>
    let cmd := [cfg.tshark_path, "-r", fp, "-q", "-z", "io,stat,0"]
    ([cmd], parse_io_statistics (run cmd).stdout)

/-! ## The session state machine

`start_thread` / `stop_thread` / `__enter__` / `__exit__` manipulate the
`threading.Event` `_event` and the spawned process `_process_capture`.
Thread scheduling and `time.sleep` are abstracted away: by the time
`stop_thread` acts, the capture thread's `Popen` (if any) has happened. -/

/-- The observable state of the spawned capture process. -/
structure CaptureProc where
  terminated : Bool
  waited : Bool
deriving DecidableEq, Repr

/-- The action of `Popen.terminate()`. -/
def CaptureProc.terminate (p : CaptureProc) : CaptureProc :=
  { p with terminated := true }

/-- The action of `Popen.wait()`. -/
def CaptureProc.wait (p : CaptureProc) : CaptureProc :=
  { p with waited := true }

/-- The wrapper state touched by the lifecycle methods: the stop event and
`_process_capture` (`none` models the initial `None`). -/
structure SessionState where
  eventSet : Bool
  process : Option CaptureProc
deriving DecidableEq, Repr

/-- Embedding of `TsharkWrapper.stop_thread`: raises if the stop event is already set
(state unchanged); otherwise terminates the process, waits for it, and
sets the event.  A still-`None` process makes `None.terminate()` raise
`AttributeError`. -/
def stop_thread (s : SessionState) : SessionState × Option PyError :=
  if s.eventSet then
    (s, some (.exception "Capture is not running or has already stopped"))
  else
    match s.process with
    | none => (s, some .attributeError)
    | some p =>
      ({ eventSet := true, process := some (p.terminate.wait) }, none)

/-- Embedding of `TsharkWrapper.start_thread`: clears the event and starts the capture
thread, which spawns the capture process. -/
def start_thread (_s : SessionState) : SessionState :=
  { eventSet := false, process := some { terminated := false, waited := false } }

/-- Embedding of `TsharkWrapper.__enter__`. -/
def enterCtx (s : SessionState) : SessionState :=
  start_thread s

/-- Embedding of `TsharkWrapper.__exit__`: just calls `stop_thread`. -/
def exitCtx (s : SessionState) : SessionState × Option PyError :=
  stop_thread s

/-! ## Helper lemmas -/

theorem splitLastParen_eq :
    ∀ {r p q : List Char}, splitLastParen r = some (p, q) →
      r = p ++ ')' :: q := by
  intro r
  induction r with
  | nil => intro p q h; simp [splitLastParen] at h
  | cons c t ih =>
    intro p q h
    rw [splitLastParen] at h
    cases hs : splitLastParen t with
    | some pq =>
      obtain ⟨p', q'⟩ := pq
      rw [hs] at h
      simp only [Option.some.injEq, Prod.mk.injEq] at h
      obtain ⟨hp, hq⟩ := h
      subst hp hq
      simp [ih hs]
    | none =>
      rw [hs] at h
      by_cases hc : c == ')'
      · simp only [hc, if_true, Option.some.injEq, Prod.mk.injEq] at h
        obtain ⟨hp, hq⟩ := h
        subst hp hq
        have : c = ')' := by simpa using hc
        subst this
        rfl
      · simp [hc] at h

theorem splitLastSpParen_eq :
    ∀ {p a b : List Char}, splitLastSpParen p = some (a, b) →
      p = a ++ ' ' :: '(' :: b := by
  intro p
  induction p with
  | nil => intro a b h; simp [splitLastSpParen] at h
  | cons c1 rest ih =>
    intro a b h
    cases rest with
    | nil => simp [splitLastSpParen] at h
    | cons c2 t =>
      rw [splitLastSpParen] at h
      cases hs : splitLastSpParen (c2 :: t) with
      | some ab =>
        obtain ⟨a', b'⟩ := ab
        rw [hs] at h
        simp only [Option.some.injEq, Prod.mk.injEq] at h
        obtain ⟨ha, hb⟩ := h
        subst ha hb
        simp [ih hs]
      | none =>
        rw [hs] at h
        by_cases hc : c1 == ' ' && c2 == '('
        · simp only [hc, if_true, Option.some.injEq, Prod.mk.injEq] at h
          obtain ⟨ha, hb⟩ := h
          subst ha hb
          have h1 : c1 = ' ' := by
            have := ((Bool.and_eq_true _ _).mp hc).1
            simpa using this
          have h2 : c2 = '(' := by
            have := ((Bool.and_eq_true _ _).mp hc).2
            simpa using this
          subst h1 h2
          rfl
        · simp [hc] at h

theorem matchNameDesc_sound {r a b : List Char}
    (h : matchNameDesc r = some (a, b)) :
    ∃ q, r = a ++ ' ' :: '(' :: (b ++ ')' :: q) := by
  rw [matchNameDesc] at h
  cases hs : splitLastParen r with
  | none => rw [hs] at h; simp at h
  | some pq =>
    obtain ⟨p, q⟩ := pq
    rw [hs] at h
    have hr := splitLastParen_eq hs
    have hp := splitLastSpParen_eq h
    refine ⟨q, ?_⟩
    rw [hr, hp]
    simp

theorem matchIntfAt_sound {l : List Char} {n nm ds : String}
    (h : matchIntfAt l = some (n, nm, ds)) :
    n.data ≠ [] ∧ (∀ c ∈ n.data, c.isDigit = true) ∧
      ∃ q, l = n.data ++ '.' :: ' ' :: (nm.data ++ ' ' :: '(' :: (ds.data ++ ')' :: q)) := by
  rw [matchIntfAt] at h
  split at h
  · exact absurd h (by simp)
  next d dtl h1 =>
    split at h
    next r h2 =>
      cases h3 : matchNameDesc r with
      | none => rw [h3] at h; exact absurd h (by simp)
      | some ab =>
        obtain ⟨a, b⟩ := ab
        rw [h3] at h
        simp only [Option.some.injEq, Prod.mk.injEq] at h
        obtain ⟨hn, hnm, hds⟩ := h
        subst hn hnm hds
        obtain ⟨q, hys⟩ := matchNameDesc_sound h3
        refine ⟨by simp, ?_, q, ?_⟩
        · intro c hc
          have : c ∈ l.takeWhile Char.isDigit := by rw [h1]; simpa using hc
          exact List.mem_takeWhile_imp this
        · have hl : l = (d :: dtl) ++ '.' :: ' ' :: r := by
            conv_lhs => rw [← List.takeWhile_append_dropWhile (p := Char.isDigit) (l := l)]
            rw [h1, h2]
          rw [hl, hys]
    next => exact absurd h (by simp)

theorem searchIntf_sound :
    ∀ {l : List Char} {n nm ds : String}, searchIntf l = some (n, nm, ds) →
      n.data ≠ [] ∧ (∀ c ∈ n.data, c.isDigit = true) ∧
        List.IsInfix
          (n.data ++ '.' :: ' ' :: (nm.data ++ ' ' :: '(' :: (ds.data ++ [')'])))
          l := by
  intro l
  induction l with
  | nil => intro n nm ds h; simp [searchIntf] at h
  | cons c t ih =>
    intro n nm ds h
    rw [searchIntf] at h
    cases hm : matchIntfAt (c :: t) with
    | some res =>
      rw [hm] at h
      simp only [Option.some.injEq] at h
      subst h
      obtain ⟨hne, hdig, q, hdec⟩ := matchIntfAt_sound hm
      refine ⟨hne, hdig, [], q, ?_⟩
      rw [hdec]
      simp
    | none =>
      rw [hm] at h
      obtain ⟨hne, hdig, hinf⟩ := ih h
      exact ⟨hne, hdig, hinf.trans (List.infix_cons (List.infix_refl t))⟩

theorem intfLoop_eq_filterMap :
    ∀ ls : List String,
      intfLoop ls = ls.filterMap
        (fun line => (searchIntf line.data).map
          (fun tr => { number := tr.1, name := tr.2.1, description := tr.2.2 })) := by
  intro ls
  induction ls with
  | nil => rfl
  | cons line rest ih =>
    rw [intfLoop, List.filterMap_cons]
    cases hm : searchIntf line.data with
    | some tr => obtain ⟨n, nm, ds⟩ := tr; simp [hm, ih]
    | none => simp [hm, ih]

theorem findFieldLoop_eq_find? :
    ∀ (field : IntfField) (value : String) (l : List IntfRecord),
      findFieldLoop field value l =
        match l.find? (fun r => fieldValue r field == value) with
        | some r => .ok r.number
        | none =>
          .error (.exception
            ("Field " ++ fieldLabel field ++ " with value " ++ value ++ " not found")) := by
  intro field value l
  induction l with
  | nil => rfl
  | cons r rest ih =>
    rw [findFieldLoop, List.find?]
    by_cases hr : fieldValue r field = value
    · simp [hr]
    · have hb : (fieldValue r field == value) = false := by
        simpa using hr
      simp only [hb, if_neg hr, cond_false]
      exact ih

/-! ## Specification-side descriptions of the built command -/

/-- The `-w` segment: present exactly when `file_path` is set (truthy). -/
def wSeg : Option String → List String
  | some fp => if fp == "" then [] else ["-w", fp]
  | none => []

/-- The `-f` segment: present exactly when `capture_filter` is set (truthy). -/
def fSeg : Option String → List String
  | some f => if f == "" then [] else ["-f", f]
  | none => []

/-- The `-a duration:<d>` segment: present exactly when a (nonzero)
duration is given. -/
def aSeg : Option Int → List String
  | some d => if d == 0 then [] else ["-a", "duration:" ++ toString d]
  | none => []

theorem start_capture_cmd_eq (cfg : TsharkConfig) (duration : Option Int) :
    start_capture_cmd cfg duration
      = [cfg.tshark_path, "-p", "-q", "-i"] ++ cfg.interface_number
          ++ wSeg cfg.file_path ++ fSeg cfg.capture_filter ++ aSeg duration := by
  unfold start_capture_cmd
  cases hf : cfg.file_path with
  | none =>
    cases hc : cfg.capture_filter with
    | none =>
      cases duration with
      | none => simp [wSeg, fSeg, aSeg]
      | some d =>
        by_cases hd : d == 0 <;> simp [wSeg, fSeg, aSeg, hd]
    | some f =>
      by_cases hcf : f == "" <;>
        cases duration with
        | none => simp [wSeg, fSeg, aSeg, hcf]
        | some d => by_cases hd : d == 0 <;> simp [wSeg, fSeg, aSeg, hcf, hd]
  | some fp =>
    by_cases hfp : fp == "" <;>
      cases hc : cfg.capture_filter with
      | none =>
        cases duration with
        | none => simp [wSeg, fSeg, aSeg, hfp]
        | some d => by_cases hd : d == 0 <;> simp [wSeg, fSeg, aSeg, hfp, hd]
      | some f =>
        by_cases hcf : f == "" <;>
          cases duration with
          | none => simp [wSeg, fSeg, aSeg, hfp, hcf]
          | some d => by_cases hd : d == 0 <;> simp [wSeg, fSeg, aSeg, hfp, hcf, hd]

/-! ## Specification-side description of the interface resolution -/

/-- The numbers looked up for each given interface name, in order. -/
def lookupByNames (stdout : String) : Option PyStrArg → Except PyError (List String)
  | none => .ok []
  | some (.one s) => (get_interface_number_by_name stdout s).map (fun n => [n])
  | some (.many l) => l.mapM (get_interface_number_by_name stdout)

/-- The numbers looked up for each given interface description, in order. -/
def lookupByDescriptions (stdout : String) :
    Option PyStrArg → Except PyError (List String)
  | none => .ok []
  | some (.one s) => (get_interface_number_by_description stdout s).map (fun n => [n])
  | some (.many l) => l.mapM (get_interface_number_by_description stdout)

theorem getInterfaceNumberOf_eq (stdout : String) (num? : Option PyIntfNumArg)
    (name? desc? : Option PyStrArg) {ns ds : List String}
    (h1 : lookupByNames stdout name? = .ok ns)
    (h2 : lookupByDescriptions stdout desc? = .ok ds) :
    getInterfaceNumberOf stdout num? name? desc?
      = .ok (numArgStrs num? ++ ns ++ ds) := by
  unfold getInterfaceNumberOf
  simp only []
  have step1 :
      (match name? with
        | none => (.ok (numArgStrs num?) : Except PyError (List String))
        | some (.one s) =>
          match get_interface_number_by_name stdout s with
          | .error e => .error e
          | .ok n => .ok (numArgStrs num? ++ [n])
        | some (.many l) =>
          match l.mapM (get_interface_number_by_name stdout) with
          | .error e => .error e
          | .ok nsl => .ok (numArgStrs num? ++ nsl))
        = .ok (numArgStrs num? ++ ns) := by
    cases name? with
    | none =>
      rw [lookupByNames] at h1
      simp only [Except.ok.injEq] at h1
      subst h1
      simp
    | some arg =>
      cases arg with
      | one s =>
        rw [lookupByNames] at h1
        cases hx : get_interface_number_by_name stdout s with
        | error e => rw [hx] at h1; simp [Except.map] at h1
        | ok nn =>
          rw [hx] at h1
          simp only [Except.map, Except.ok.injEq] at h1
          subst h1
          simp [hx]
      | many l =>
        rw [lookupByNames] at h1
        simp only []
        rw [h1]
  rw [step1]
  simp only []
  cases desc? with
  | none =>
    rw [lookupByDescriptions] at h2
    simp only [Except.ok.injEq] at h2
    subst h2
    simp
  | some arg =>
    cases arg with
    | one s =>
      rw [lookupByDescriptions] at h2
      cases hx : get_interface_number_by_description stdout s with
      | error e => rw [hx] at h2; simp [Except.map] at h2
      | ok nn =>
        rw [hx] at h2
        simp only [Except.map, Except.ok.injEq] at h2
        subst h2
        simp [hx]
    | many l =>
      rw [lookupByDescriptions] at h2
      simp only []
      rw [h2]

/-! ## Specification-side well-formedness of a statistics report -/

/-- The precondition stated by the specification for `parse_io_statistics`
not to raise: at least two lines, and the second-to-last line has at least
three `'|'`-separated fields whose third-from-last and second-from-last
fields are integer literals after stripping. -/
def statsInputWellFormed (stdout : String) : Bool :=
  match negIdx? (pySplitlines stdout) 2 with
  | none => false
  | some row =>
    let fields := pySplitChar '|' row.data
    match negIdx? fields 3, negIdx? fields 2 with
    | some bcell, some fcell =>
      (pyInt? (pyStripL bcell)).isSome && (pyInt? (pyStripL fcell)).isSome
    | _, _ => false

/-! ## A concrete `tshark -z io,stat,0` report

The layout below is the fixed-width table tshark prints for
`-q -z io,stat,0`: the columns of the data row are, in order,
`Interval`, `Frames`, `Bytes`, and every row of the table ends with a
closing `'|'`. -/

/-- A report whose data row has `Frames = 14` and `Bytes = 1508`. -/
def sampleIoStatReport : String :=
  "=================================\n" ++
  "| IO Statistics                 |\n" ++
  "|                               |\n" ++
  "| Duration: 60.5 secs           |\n" ++
  "| Interval: 60.5 secs           |\n" ++
  "|                               |\n" ++
  "| Col 1: Frames and bytes       |\n" ++
  "|-------------------------------|\n" ++
  "|              |1               |\n" ++
  "| Interval     | Frames | Bytes |\n" ++
  "|-------------------------------|\n" ++
  "|  0.0 <> 60.5 |     14 |  1508 |\n" ++
  "================================="

/-! ## Claim theorems -/

/-- C2: for every `TsharkWrapper` used as a context manager over a running
session (stop event clear, capture process spawned), leaving the
with-block terminates the capture: `__exit__` calls `stop_thread`, which
terminates the spawned process, waits for it, and sets the stop event. -/
theorem exit_guarantees_capture_termination (s : SessionState) (p : CaptureProc)
    (hp : s.process = some p) (he : s.eventSet = false) :
    exitCtx s = stop_thread s
    ∧ exitCtx s
        = ({ eventSet := true,
             process := some ((CaptureProc.terminate p).wait) }, none)
    ∧ ((CaptureProc.terminate p).wait).terminated = true
    ∧ ((CaptureProc.terminate p).wait).waited = true := by
  refine ⟨rfl, ?_, rfl, rfl⟩
  unfold exitCtx stop_thread
  rw [he, hp]
  simp

/-- Witness for C2 at the freshly started session state. -/
theorem exit_guarantees_capture_termination_witness :
    exitCtx { eventSet := false, process := some { terminated := false, waited := false } }
      = ({ eventSet := true, process := some { terminated := true, waited := true } },
         none) :=
  (exit_guarantees_capture_termination
    { eventSet := false, process := some { terminated := false, waited := false } }
    { terminated := false, waited := false } rfl rfl).2.1

/-- C3: `start_capture` only builds an argument list and delegates to the
external binary: the list is the tshark path, `-p`, `-q`, a single `-i`
followed by the configured interface numbers, then the `-w`, `-f` and
`-a duration:<d>` pairs exactly when `file_path`, `capture_filter` and the
duration are set (truthy); exactly one subprocess is spawned with this
list and its return code is returned. -/
theorem start_capture_builds_single_command (cfg : TsharkConfig)
    (duration : Option Int) (spawn : List String → RunResult) :
    start_capture cfg duration spawn
      = ([start_capture_cmd cfg duration],
         (spawn (start_capture_cmd cfg duration)).returncode)
    ∧ start_capture_cmd cfg duration
        = [cfg.tshark_path, "-p", "-q", "-i"] ++ cfg.interface_number
            ++ wSeg cfg.file_path ++ fSeg cfg.capture_filter ++ aSeg duration
    ∧ (wSeg cfg.file_path = [] ↔ pyTruthyStr cfg.file_path = false)
    ∧ (fSeg cfg.capture_filter = [] ↔ pyTruthyStr cfg.capture_filter = false)
    ∧ (aSeg duration = [] ↔ pyTruthyInt duration = false)
    ∧ (∀ fp, cfg.file_path = some fp → pyTruthyStr cfg.file_path = true →
         wSeg cfg.file_path = ["-w", fp])
    ∧ (∀ f, cfg.capture_filter = some f → pyTruthyStr cfg.capture_filter = true →
         fSeg cfg.capture_filter = ["-f", f])
    ∧ (∀ d, duration = some d → pyTruthyInt duration = true →
         aSeg duration = ["-a", "duration:" ++ toString d]) := by
  refine ⟨rfl, start_capture_cmd_eq cfg duration, ?_, ?_, ?_, ?_, ?_, ?_⟩
  · cases hf : cfg.file_path with
    | none => simp [wSeg, pyTruthyStr]
    | some fp => by_cases hfp : fp == "" <;> simp [wSeg, pyTruthyStr, hfp]
  · cases hc : cfg.capture_filter with
    | none => simp [fSeg, pyTruthyStr]
    | some f => by_cases hcf : f == "" <;> simp [fSeg, pyTruthyStr, hcf]
  · cases duration with
    | none => simp [aSeg, pyTruthyInt]
    | some d => by_cases hd : d == 0 <;> simp [aSeg, pyTruthyInt, hd]
  · intro fp hfp htr
    rw [hfp] at htr ⊢
    rw [wSeg]
    simp only [pyTruthyStr] at htr
    have hne : ¬fp = "" := by simpa using htr
    simp [hne]
  · intro f hf htr
    rw [hf] at htr ⊢
    rw [fSeg]
    simp only [pyTruthyStr] at htr
    have hne : ¬f = "" := by simpa using htr
    simp [hne]
  · intro d hd htr
    rw [hd] at htr ⊢
    rw [aSeg]
    simp only [pyTruthyInt] at htr
    have hne : ¬d = 0 := by simpa using htr
    simp [hne]

/-- Witness for C3 at a fully populated configuration. -/
theorem start_capture_builds_single_command_witness :
    start_capture_cmd
        { file_path := some "c.pcap", capture_filter := some "tcp",
          tshark_path := "tshark", interface_number := ["5", "2"] } (some 3)
      = ["tshark", "-p", "-q", "-i"] ++ ["5", "2"]
          ++ wSeg (some "c.pcap") ++ fSeg (some "tcp") ++ aSeg (some 3) :=
  (start_capture_builds_single_command
    { file_path := some "c.pcap", capture_filter := some "tcp",
      tshark_path := "tshark", interface_number := ["5", "2"] } (some 3)
    (fun _ => { returncode := 0, stdout := "", stderr := "" })).2.1

/-- C4: `list_interfaces`, `read_pcap` and `apply_filter` each shell out
once, return the tool's stdout unchanged exactly when the return code is
0, and raise an Exception carrying the tool's stderr exactly when it is
nonzero. -/
theorem tool_ops_stdout_or_exception (tp pf flt : String)
    (run : List String → RunResult) :
    ((list_interfaces tp run).1 = [[tp, "-D"]]
      ∧ (isOkB (list_interfaces tp run).2 = true ↔ (run [tp, "-D"]).returncode = 0)
      ∧ ((run [tp, "-D"]).returncode = 0 →
           (list_interfaces tp run).2 = .ok (run [tp, "-D"]).stdout)
      ∧ ((run [tp, "-D"]).returncode ≠ 0 →
           (list_interfaces tp run).2
             = .error (.exception
                 ("Error listing interfaces: " ++ (run [tp, "-D"]).stderr))))
    ∧ ((read_pcap tp pf run).1 = [[tp, "-r", pf]]
      ∧ (isOkB (read_pcap tp pf run).2 = true ↔ (run [tp, "-r", pf]).returncode = 0)
      ∧ ((run [tp, "-r", pf]).returncode = 0 →
           (read_pcap tp pf run).2 = .ok (run [tp, "-r", pf]).stdout)
      ∧ ((run [tp, "-r", pf]).returncode ≠ 0 →
           (read_pcap tp pf run).2
             = .error (.exception
                 ("Error reading pcap file: " ++ (run [tp, "-r", pf]).stderr))))
    ∧ ((apply_filter tp pf flt run).1 = [[tp, "-r", pf, "-Y", flt]]
      ∧ (isOkB (apply_filter tp pf flt run).2 = true
           ↔ (run [tp, "-r", pf, "-Y", flt]).returncode = 0)
      ∧ ((run [tp, "-r", pf, "-Y", flt]).returncode = 0 →
           (apply_filter tp pf flt run).2
             = .ok (run [tp, "-r", pf, "-Y", flt]).stdout)
      ∧ ((run [tp, "-r", pf, "-Y", flt]).returncode ≠ 0 →
           (apply_filter tp pf flt run).2
             = .error (.exception
                 ("Error applying display filter: "
                   ++ (run [tp, "-r", pf, "-Y", flt]).stderr)))) := by
  refine ⟨⟨rfl, ?_, ?_, ?_⟩, ⟨rfl, ?_, ?_, ?_⟩, ⟨rfl, ?_, ?_, ?_⟩⟩
  · by_cases h0 : (run [tp, "-D"]).returncode = 0 <;>
      simp [list_interfaces, isOkB, h0]
  · by_cases h0 : (run [tp, "-D"]).returncode = 0 <;>
      simp [list_interfaces, isOkB, h0]
  · by_cases h0 : (run [tp, "-D"]).returncode = 0 <;>
      simp [list_interfaces, isOkB, h0]
  · by_cases h0 : (run [tp, "-r", pf]).returncode = 0 <;>
      simp [read_pcap, isOkB, h0]
  · by_cases h0 : (run [tp, "-r", pf]).returncode = 0 <;>
      simp [read_pcap, isOkB, h0]
  · by_cases h0 : (run [tp, "-r", pf]).returncode = 0 <;>
      simp [read_pcap, isOkB, h0]
  · by_cases h0 : (run [tp, "-r", pf, "-Y", flt]).returncode = 0 <;>
      simp [apply_filter, isOkB, h0]
  · by_cases h0 : (run [tp, "-r", pf, "-Y", flt]).returncode = 0 <;>
      simp [apply_filter, isOkB, h0]
  · by_cases h0 : (run [tp, "-r", pf, "-Y", flt]).returncode = 0 <;>
      simp [apply_filter, isOkB, h0]

/-- Witness for C4: a zero exit returns stdout, a nonzero exit raises with
the stderr. -/
theorem tool_ops_stdout_or_exception_witness :
    (list_interfaces "tshark"
        (fun _ => { returncode := 0, stdout := "LIST", stderr := "E" })).2
      = .ok "LIST"
    ∧ (apply_filter "tshark" "c.pcap" "tcp"
        (fun _ => { returncode := 2, stdout := "O", stderr := "bad" })).2
      = .error (.exception ("Error applying display filter: " ++ "bad")) := by
  constructor
  · exact (tool_ops_stdout_or_exception "tshark" "p" "f"
      (fun _ => { returncode := 0, stdout := "LIST", stderr := "E" })).1.2.2.1 rfl
  · exact (tool_ops_stdout_or_exception "tshark" "c.pcap" "tcp"
      (fun _ => { returncode := 2, stdout := "O", stderr := "bad" })).2.2.2.2.2
      (by decide)

/-- C5: the lifecycle has only the two states running / not running:
`stop_thread` with the stop event already set raises and leaves the state
unchanged; in the running state it terminates the process, waits, and sets
the event; hence it never succeeds twice in a row. -/
theorem stop_thread_two_state_lifecycle (s : SessionState) :
    (s.eventSet = true →
       stop_thread s
         = (s, some (.exception "Capture is not running or has already stopped")))
    ∧ (∀ p, s.eventSet = false → s.process = some p →
         stop_thread s
           = ({ eventSet := true,
                process := some ((CaptureProc.terminate p).wait) }, none))
    ∧ ((stop_thread s).2 = none →
         ((stop_thread (stop_thread s).1).2).isSome = true) := by
  refine ⟨?_, ?_, ?_⟩
  · intro he
    unfold stop_thread
    rw [he]
    simp
  · intro p he hp
    unfold stop_thread
    rw [he, hp]
    simp
  · intro hnone
    by_cases he : s.eventSet
    · rw [stop_thread] at hnone
      simp [he] at hnone
    · cases hp : s.process with
      | none =>
        rw [stop_thread] at hnone
        simp [he, hp] at hnone
      | some p =>
        rw [stop_thread, stop_thread]
        simp [he, hp]

/-- Witness for C5: one successful stop followed by a raising second stop. -/
theorem stop_thread_two_state_lifecycle_witness :
    (stop_thread
        { eventSet := false,
          process := some { terminated := false, waited := false } }).2 = none
    ∧ ((stop_thread
          (stop_thread
            { eventSet := false,
              process := some { terminated := false, waited := false } }).1).2).isSome
        = true :=
  ⟨rfl,
    (stop_thread_two_state_lifecycle
      { eventSet := false,
        process := some { terminated := false, waited := false } }).2.2 rfl⟩

/-- C7: the name (resp. description) lookup returns the `number` field of
the first record, in listing order, whose `name` (resp. `description`)
equals the given value, and raises an Exception naming the field and the
value when no record matches. -/
theorem interface_lookup_first_match_or_exception (stdout v : String) :
    get_interface_number_by_name stdout v
      = (match (get_interfaces_data stdout).find? (fun r => r.name == v) with
         | some r => .ok r.number
         | none =>
           .error (.exception
             ("Field " ++ "name" ++ " with value " ++ v ++ " not found")))
    ∧ get_interface_number_by_description stdout v
      = (match (get_interfaces_data stdout).find? (fun r => r.description == v) with
         | some r => .ok r.number
         | none =>
           .error (.exception
             ("Field " ++ "description" ++ " with value " ++ v ++ " not found"))) := by
  constructor
  · rw [get_interface_number_by_name, getInterfaceNumberByField,
      findFieldLoop_eq_find?]
    simp [fieldValue, fieldLabel]
  · rw [get_interface_number_by_description, getInterfaceNumberByField,
      findFieldLoop_eq_find?]
    simp [fieldValue, fieldLabel]

/-- C6: `get_interfaces_data` returns one record per line matched by the
pattern `(\d+)\. (.*) \((.*)\)`, with the three captured groups as
`number`, `name`, `description`, in line order, skipping non-matching
lines; a successful match means the line contains
`<digits>. <name> (<description>)` as a substring. -/
theorem get_interfaces_data_per_line_records (stdout : String) :
    get_interfaces_data stdout
      = (pySplitlines stdout).filterMap
          (fun line => (searchIntf line.data).map
            (fun tr => { number := tr.1, name := tr.2.1, description := tr.2.2 }))
    ∧ ∀ (line n nm ds : String),
        searchIntf line.data = some (n, nm, ds) →
          n.data ≠ [] ∧ (∀ c ∈ n.data, c.isDigit = true) ∧
          List.IsInfix
            (n.data ++ '.' :: ' ' :: (nm.data ++ ' ' :: '(' :: (ds.data ++ [')'])))
            line.data := by
  constructor
  · rw [get_interfaces_data]
    exact intfLoop_eq_filterMap _
  · intro line n nm ds h
    exact searchIntf_sound h

/-- Witness for C6 on a two-interface listing with a junk line. -/
theorem get_interfaces_data_per_line_records_witness :
    get_interfaces_data "1. eth0 (Ethernet)\njunk\n2. wlan0 (Wireless LAN)"
      = [{ number := "1", name := "eth0", description := "Ethernet" },
         { number := "2", name := "wlan0", description := "Wireless LAN" }]
    ∧ List.IsInfix
        ("2".data ++ '.' :: ' ' :: ("wlan0".data ++ ' ' :: '(' :: ("Wireless LAN".data ++ [')'])))
        ("2. wlan0 (Wireless LAN)".data) := by
  constructor
  · rw [(get_interfaces_data_per_line_records
      "1. eth0 (Ethernet)\njunk\n2. wlan0 (Wireless LAN)").1]
    rfl
  · exact ((get_interfaces_data_per_line_records "").2
      "2. wlan0 (Wireless LAN)" "2" "wlan0" "Wireless LAN" rfl).2.2

/-- C8: `get_statistics` never inspects the exit status: with the resolved
path (the instance's `file_path` when the argument is `None`/falsy) it
spawns `-r <path> -q -z io,stat,0` and unconditionally parses the stdout;
the result depends on the run only through its stdout. -/
theorem get_statistics_ignores_exit_status (cfg : TsharkConfig)
    (arg : Option String) (run : List String → RunResult) (fp : String)
    (h : pyOrOptStr arg cfg.file_path = some fp) :
    get_statistics cfg arg run
      = ([[cfg.tshark_path, "-r", fp, "-q", "-z", "io,stat,0"]],
         parse_io_statistics
           (run [cfg.tshark_path, "-r", fp, "-q", "-z", "io,stat,0"]).stdout)
    ∧ (arg = none → pyOrOptStr arg cfg.file_path = cfg.file_path)
    ∧ ∀ run' : List String → RunResult,
        (∀ c, (run c).stdout = (run' c).stdout) →
        get_statistics cfg arg run = get_statistics cfg arg run' := by
  refine ⟨?_, ?_, ?_⟩
  · unfold get_statistics
    rw [h]
  · intro ha
    subst ha
    simp [pyOrOptStr, pyTruthyStr]
  · intro run' hst
    unfold get_statistics
    rw [h]
    simp only []
    rw [hst]

/-- Witness for C8: a nonzero return code still yields the parsed stdout. -/
theorem get_statistics_ignores_exit_status_witness :
    get_statistics
        { file_path := some "c.pcap", capture_filter := none,
          tshark_path := "t", interface_number := [] } none
        (fun _ => { returncode := 1, stdout := "x\n| a | 2 | 3 |\nend",
                    stderr := "boom" })
      = ([["t", "-r", "c.pcap", "-q", "-z", "io,stat,0"]],
         .ok { duration := none, interval := none, frames := 3, bytes := 2 }) := by
  rw [(get_statistics_ignores_exit_status
    { file_path := some "c.pcap", capture_filter := none,
      tshark_path := "t", interface_number := [] } none
    (fun _ => { returncode := 1, stdout := "x\n| a | 2 | 3 |\nend",
                stderr := "boom" }) "c.pcap" rfl).1]
  rfl

/-- C9: `parse_io_statistics` raises exactly on inputs that are not
well-formed in the stated sense (fewer than two lines, or a second-to-last
line without at least three `|`-separated fields whose third-from-last and
second-from-last fields are integer literals after stripping); on
well-formed input a missing `Duration:`/`Interval:` pattern yields a `None`
field rather than an error; the empty string raises. -/
theorem parse_io_statistics_partiality (stdout : String) :
    isOkB (parse_io_statistics stdout) = statsInputWellFormed stdout
    ∧ (statsInputWellFormed stdout = true →
        ∃ fr bs, parse_io_statistics stdout
          = .ok { duration := searchFloatSecs "Duration: " stdout,
                  interval := searchFloatSecs "Interval: " stdout,
                  frames := fr, bytes := bs })
    ∧ parse_io_statistics "" = .error .indexError := by
  refine ⟨?_, ?_, rfl⟩
  · unfold parse_io_statistics statsInputWellFormed
    simp only []
    cases h1 : negIdx? (pySplitlines stdout) 2 with
    | none => simp [isOkB]
    | some row =>
      simp only []
      cases h3 : negIdx? (pySplitChar '|' row.data) 3 with
      | none =>
        cases h2 : negIdx? (pySplitChar '|' row.data) 2 with
        | none => simp [isOkB]
        | some fcell =>
          cases h4 : pyInt? (pyStripL fcell) with
          | none => simp [isOkB, h4]
          | some fr => simp [isOkB, h4]
      | some bcell =>
        cases h2 : negIdx? (pySplitChar '|' row.data) 2 with
        | none => simp [isOkB]
        | some fcell =>
          cases h4 : pyInt? (pyStripL fcell) with
          | none => simp [isOkB, h4]
          | some fr =>
            cases h5 : pyInt? (pyStripL bcell) with
            | none => simp [isOkB, h4, h5]
            | some bs => simp [isOkB, h4, h5]
  · intro hwf
    unfold statsInputWellFormed at hwf
    cases h1 : negIdx? (pySplitlines stdout) 2 with
    | none => rw [h1] at hwf; simp at hwf
    | some row =>
      rw [h1] at hwf
      simp only [] at hwf
      cases h3 : negIdx? (pySplitChar '|' row.data) 3 with
      | none => rw [h3] at hwf; simp at hwf
      | some bcell =>
        rw [h3] at hwf
        cases h2 : negIdx? (pySplitChar '|' row.data) 2 with
        | none => rw [h2] at hwf; simp at hwf
        | some fcell =>
          rw [h2] at hwf
          simp only [Bool.and_eq_true, Option.isSome_iff_exists] at hwf
          obtain ⟨⟨bs, h5⟩, ⟨fr, h4⟩⟩ := hwf
          refine ⟨fr, bs, ?_⟩
          simp only [parse_io_statistics]
          rw [h1]
          simp only [h2, h3, h4, h5]

/-- Witness for C9: a well-formed report with no `Duration:`/`Interval:`
patterns parses with `None` duration and interval. -/
theorem parse_io_statistics_partiality_witness :
    statsInputWellFormed "head\n|9|7|\ntail" = true
    ∧ ∃ fr bs, parse_io_statistics "head\n|9|7|\ntail"
        = .ok { duration := searchFloatSecs "Duration: " "head\n|9|7|\ntail",
                interval := searchFloatSecs "Interval: " "head\n|9|7|\ntail",
                frames := fr, bytes := bs } :=
  ⟨rfl, (parse_io_statistics_partiality "head\n|9|7|\ntail").2.1 rfl⟩

/-- C1: on the tshark io,stat report `sampleIoStatReport`, whose data row
is `|  0.0 <> 60.5 |     14 |  1508 |` (the `Frames` column holds `14` and
the `Bytes` column `1508`, and the row ends with a closing `|` so that
`split('|')` produces a trailing empty field), `parse_io_statistics`
returns `frames = 1508` and `bytes = 14`: the two fixed-width columns are
swapped, while duration and interval are the captured `60.5`. -/
theorem parse_io_statistics_swaps_frames_and_bytes :
    negIdx? (pySplitlines sampleIoStatReport) 2
      = some "|  0.0 <> 60.5 |     14 |  1508 |"
    ∧ parse_io_statistics sampleIoStatReport
      = .ok { duration := some ((121 : ℚ) / 2), interval := some ((121 : ℚ) / 2),
              frames := 1508, bytes := 14 } := by
  have hv : ratOfParts ['6', '0'] ['5'] = (121 : ℚ) / 2 := by
    have e1 : natDigitsVal ['6', '0'] = 60 := rfl
    have e2 : natDigitsVal ['5'] = 5 := rfl
    unfold ratOfParts
    rw [e1, e2]
    norm_num
  refine ⟨rfl, ?_⟩
  have hp : parse_io_statistics sampleIoStatReport
      = .ok { duration := some (ratOfParts ['6', '0'] ['5']),
              interval := some (ratOfParts ['6', '0'] ['5']),
              frames := 1508, bytes := 14 } := rfl
  rw [hp, hv]

/-- C10: the constructor resolves the capture interfaces in the fixed
order: explicit numbers (as strings) first, then the name lookups, then
the description lookups, and `start_capture` places exactly that list
after the `-i` flag. -/
theorem init_interface_resolution_order (stdout : String)
    (fp cf : Option String) (tp : String) (num? : Option PyIntfNumArg)
    (name? desc? : Option PyStrArg) (ns ds : List String) (d : Option Int)
    (h1 : lookupByNames stdout name? = .ok ns)
    (h2 : lookupByDescriptions stdout desc? = .ok ds) :
    tsharkWrapperInit stdout fp cf tp num? name? desc?
      = .ok { file_path := fp, capture_filter := cf, tshark_path := tp,
              interface_number := numArgStrs num? ++ ns ++ ds }
    ∧ start_capture_cmd
        { file_path := fp, capture_filter := cf, tshark_path := tp,
          interface_number := numArgStrs num? ++ ns ++ ds } d
        = [tp, "-p", "-q", "-i"] ++ (numArgStrs num? ++ ns ++ ds)
            ++ (wSeg fp ++ fSeg cf ++ aSeg d) := by
  constructor
  · unfold tsharkWrapperInit
    rw [getInterfaceNumberOf_eq stdout num? name? desc? h1 h2]
  · rw [start_capture_cmd_eq]
    simp [List.append_assoc]

/-- Witness for C10: numbers, then a name lookup, then a description
lookup, against a concrete two-interface listing. -/
theorem init_interface_resolution_order_witness :
    tsharkWrapperInit "1. eth0 (Ethernet)\n2. wlan0 (Wireless LAN)"
        (some "cap.pcap") none "tshark"
        (some (.listInt [5])) (some (.many ["wlan0"])) (some (.one "Ethernet"))
      = .ok { file_path := some "cap.pcap", capture_filter := none,
              tshark_path := "tshark", interface_number := ["5", "2", "1"] } := by
  have h := (init_interface_resolution_order
    "1. eth0 (Ethernet)\n2. wlan0 (Wireless LAN)" (some "cap.pcap") none "tshark"
    (some (.listInt [5])) (some (.many ["wlan0"])) (some (.one "Ethernet"))
    ["2"] ["1"] none rfl rfl).1
  exact h

end PySharkPP
